import Mathlib

/-!
Verification of the ADK backend gateway (src/backend/main.py, src/backend/models.py).

The development shallowly embeds the parts of the backend that the checked
properties concern: the JSON value model with Python dictionary/list semantics
(`.get`, `len`, indexing, truthiness, and the exceptions raised on ill-typed
receivers), the response-text extraction cascade of `run_sse`, the frame
formatting and session-state update performed after an agent turn, the
outbound-envelope text selection, and the session / eval-set endpoint handlers
(`get_session`, `delete_session`, `add_session_to_eval`, `get_eval_sets`).
-/

namespace ADK

/-- JSON values, as decoded by `response.json()` / carried in request bodies.
Numbers are modelled as integers (no property here depends on floats). -/
inductive Json where
  | null : Json
  | bool : Bool → Json
  | num : Int → Json
  | str : String → Json
  | arr : List Json → Json
  | obj : List (String × Json) → Json
deriving Repr

/-- Python exceptions that the embedded operations can raise. -/
inductive PyErr where
  | attributeError : String → PyErr
  | typeError : String → PyErr
  | keyError : String → PyErr
  | indexError : String → PyErr
deriving Repr, DecidableEq

/-- The message carried by a Python exception. -/
def PyErr.msg : PyErr → String
  | .attributeError m => m
  | .typeError m => m
  | .keyError m => m
  | .indexError m => m

/-- First-match lookup in an association list (Python `dict` lookup; decoded
JSON objects have no duplicate keys). -/
def getKey {α : Type} (l : List (String × α)) (k : String) : Option α :=
  match l with
  | [] => none
  | (k', v) :: t => if k' = k then some v else getKey t k

/-- Python `d[k] = v`: replace in place if present, else append. -/
def setKey {α : Type} (l : List (String × α)) (k : String) (v : α) :
    List (String × α) :=
  match l with
  | [] => [(k, v)]
  | (k', v') :: t => if k' = k then (k, v) :: t else (k', v') :: setKey t k v

/-- Python `del d[k]`. -/
def delKey {α : Type} (l : List (String × α)) (k : String) : List (String × α) :=
  l.filter (fun p => p.1 ≠ k)

/-- Python truthiness of a JSON value (`if x:`). -/
def truthy : Json → Bool
  | .null => false
  | .bool b => b
  | .num n => n ≠ 0
  | .str s => s ≠ ""
  | .arr l => !l.isEmpty
  | .obj l => !l.isEmpty

/-- Python `x.get(k, d)`: defined on dictionaries, raises `AttributeError`
on every other receiver. -/
def pyGetD (j : Json) (k : String) (d : Json) : Except PyErr Json :=
  match j with
  | .obj kvs => .ok ((getKey kvs k).getD d)
  | _ => .error (.attributeError "object has no attribute get")

/-- Python `len(x)`: defined on strings, lists and dictionaries, raises
`TypeError` otherwise. -/
def pyLen : Json → Except PyErr Nat
  | .str s => .ok s.length
  | .arr l => .ok l.length
  | .obj l => .ok l.length
  | _ => .error (.typeError "object has no len")

/-- Python `x[i]` for a natural index: list indexing, single-character string
indexing, `KeyError` on dictionaries (JSON keys are strings), `TypeError`
otherwise. -/
def pyIndex (j : Json) (i : Nat) : Except PyErr Json :=
  match j with
  | .arr l =>
    match l.get? i with
    | some x => .ok x
    | none => .error (.indexError "list index out of range")
  | .str s =>
    match s.toList.get? i with
    | some c => .ok (.str (String.singleton c))
    | none => .error (.indexError "string index out of range")
  | .obj _ => .error (.keyError "integer key not present")
  | _ => .error (.typeError "object is not subscriptable")

/-- One escaped character of `json.dumps` string output. -/
def escapeChar (c : Char) : String :=
  if c = '"' then "\\\""
  else if c = '\\' then "\\\\"
  else if c = '\n' then "\\n"
  else if c = '\t' then "\\t"
  else if c = '\r' then "\\r"
  else String.singleton c

/-- `json.dumps` escaping of a string body. -/
def escape (s : String) : String :=
  String.join (s.toList.map escapeChar)

mutual

/-- `json.dumps` with default separators. -/
def dumps : Json → String
  | .null => "null"
  | .bool true => "true"
  | .bool false => "false"
  | .num n => toString n
  | .str s => "\"" ++ escape s ++ "\""
  | .arr l => "[" ++ dumpsList l ++ "]"
  | .obj l => "\x7b" ++ dumpsObj l ++ "\x7d"

/-- Comma-separated rendering of a JSON array body. -/
def dumpsList : List Json → String
  | [] => ""
  | [x] => dumps x
  | x :: xs => dumps x ++ ", " ++ dumpsList xs

/-- Comma-separated rendering of a JSON object body. -/
def dumpsObj : List (String × Json) → String
  | [] => ""
  | [(k, v)] => "\"" ++ escape k ++ "\": " ++ dumps v
  | (k, v) :: xs => "\"" ++ escape k ++ "\": " ++ dumps v ++ ", " ++ dumpsObj xs

end

/-- Whether a JSON value is a string. -/
def Json.isStr : Json → Bool
  | .str _ => true
  | _ => false

/-! ## Response-text extraction (`run_sse`, main.py lines 229-262)

The code probes, in order: `result.artifacts[0].parts[0].text`, top-level
`text`, `content.text`, `message.content`, top-level `response`, then a
diagnostic fallback embedding `json.dumps` of the whole response.  The probes
run under Python semantics: `.get` on a non-dict raises, `len` on a
non-container raises, and an `if x and len(x) > 0` guard short-circuits on a
falsy `x` before `len` is evaluated. -/

/-- Pattern 1 of the extraction cascade:
`result = resp.get("result", \x7b\x7d)`, `artifacts = result.get("artifacts", [])`,
then `artifacts[0].get("parts", [])[0].get("text", None)` behind the two
`if ... and len(...) > 0` guards. -/
def pattern1 (kvs : List (String × Json)) : Except PyErr Json :=
  let result := (getKey kvs "result").getD (.obj [])
  match pyGetD result "artifacts" (.arr []) with
  | .error e => .error e
  | .ok artifacts =>
    if truthy artifacts then
      match pyLen artifacts with
      | .error e => .error e
      | .ok n =>
        if n > 0 then
          match pyIndex artifacts 0 with
          | .error e => .error e
          | .ok first =>
            match pyGetD first "parts" (.arr []) with
            | .error e => .error e
            | .ok parts =>
              if truthy parts then
                match pyLen parts with
                | .error e => .error e
                | .ok m =>
                  if m > 0 then
                    match pyIndex parts 0 with
                    | .error e => .error e
                    | .ok p0 => pyGetD p0 "text" .null
                  else .ok .null
              else .ok .null
        else .ok .null
    else .ok .null

/-- The diagnostic fallback string of the extraction cascade
(`f"Received response but no text field found. Raw response: ..."`). -/
def noTextMsg (resp : Json) : String :=
  "Received response but no text field found. Raw response: " ++ dumps resp

/-- The extraction block of `run_sse` (main.py lines 229-262): yields the value
bound to `agent_text` just before the formatted response is built, or the
Python exception the block raises.  A non-dict response raises on the very
first `.get`. -/
def extractAgentText (resp : Json) : Except PyErr Json :=
  match resp with
  | .obj kvs =>
    match pattern1 kvs with
    | .error e => .error e
    | .ok t1 =>
      if truthy t1 then .ok t1
      else
        let t2 := (getKey kvs "text").getD .null
        if truthy t2 then .ok t2
        else
          match pyGetD ((getKey kvs "content").getD (.obj [])) "text" .null with
          | .error e => .error e
          | .ok t3 =>
            if truthy t3 then .ok t3
            else
              match pyGetD ((getKey kvs "message").getD (.obj [])) "content" .null with
              | .error e => .error e
              | .ok t4 =>
                if truthy t4 then .ok t4
                else
                  let t5 := (getKey kvs "response").getD .null
                  if truthy t5 then .ok t5
                  else .ok (.str (noTextMsg (.obj kvs)))
  | _ => .error (.attributeError "object has no attribute get")

/-! ## Shape discipline under which the extraction cascade cannot raise -/

/-- A probed leaf slot is harmless when absent, `null`, or a string. -/
def leafOk : Option Json → Bool
  | none => true
  | some .null => true
  | some (.str _) => true
  | _ => false

/-- The first artifact, when probed, must be a dictionary whose `parts` slot
is absent or a list of dictionaries at position 0. -/
def partHeadOk : Json → Bool
  | .obj pkvs => leafOk (getKey pkvs "text")
  | _ => false

/-- The `parts` slot: absent or a list whose head (if any) is well-shaped. -/
def partsOk : Option Json → Bool
  | none => true
  | some (.arr []) => true
  | some (.arr (p :: _)) => partHeadOk p
  | _ => false

/-- The head of a non-empty `artifacts` list must be a dictionary. -/
def artifactHeadOk : Json → Bool
  | .obj akvs => partsOk (getKey akvs "parts")
  | _ => false

/-- The `artifacts` slot: absent or a list whose head (if any) is well-shaped. -/
def artifactsOk : Option Json → Bool
  | none => true
  | some (.arr []) => true
  | some (.arr (a :: _)) => artifactHeadOk a
  | _ => false

/-- The `result` slot: absent or a dictionary with a well-shaped `artifacts`
slot (any present non-dict raises on `result.get("artifacts", [])`). -/
def resultOk : Option Json → Bool
  | none => true
  | some (.obj rkvs) => artifactsOk (getKey rkvs "artifacts")
  | _ => false

/-- The `content` slot: absent or a dictionary with a well-typed `text` leaf. -/
def contentOk : Option Json → Bool
  | none => true
  | some (.obj ckvs) => leafOk (getKey ckvs "text")
  | _ => false

/-- The `message` slot: absent or a dictionary with a well-typed `content`
leaf. -/
def messageOk : Option Json → Bool
  | none => true
  | some (.obj mkvs) => leafOk (getKey mkvs "content")
  | _ => false

/-- A remote-agent response on which every probe of the extraction cascade is
well-typed: a JSON object whose probed intermediates, when present, are
dictionaries/lists of the probed shape and whose probed leaves are strings or
null. -/
def wellShaped : Json → Bool
  | .obj kvs =>
    resultOk (getKey kvs "result") &&
    leafOk (getKey kvs "text") &&
    contentOk (getKey kvs "content") &&
    messageOk (getKey kvs "message") &&
    leafOk (getKey kvs "response")
  | _ => false

/-! ## The spec's reading of the cascade: ordered rules, first non-empty
string wins (component 4.4 of the specification) -/

/-- A rule "yields" a string exactly when the probed value is a non-empty
string. -/
def strRule : Json → Option String
  | .str s => if s = "" then none else some s
  | _ => none

/-- Spec rule 1: `result.artifacts[0].parts[0].text`. -/
def rule1 (kvs : List (String × Json)) : Option String :=
  match getKey kvs "result" with
  | some (.obj rkvs) =>
    match getKey rkvs "artifacts" with
    | some (.arr (a :: _)) =>
      match a with
      | .obj akvs =>
        match getKey akvs "parts" with
        | some (.arr (p :: _)) =>
          match p with
          | .obj pkvs => strRule ((getKey pkvs "text").getD .null)
          | _ => none
        | _ => none
      | _ => none
    | _ => none
  | _ => none

/-- Spec rule 2: top-level `text`. -/
def rule2 (kvs : List (String × Json)) : Option String :=
  strRule ((getKey kvs "text").getD .null)

/-- Spec rule 3: `content.text`. -/
def rule3 (kvs : List (String × Json)) : Option String :=
  match getKey kvs "content" with
  | some (.obj ckvs) => strRule ((getKey ckvs "text").getD .null)
  | _ => none

/-- Spec rule 4: `message.content`. -/
def rule4 (kvs : List (String × Json)) : Option String :=
  match getKey kvs "message" with
  | some (.obj mkvs) => strRule ((getKey mkvs "content").getD .null)
  | _ => none

/-- Spec rule 5: top-level `response`. -/
def rule5 (kvs : List (String × Json)) : Option String :=
  strRule ((getKey kvs "response").getD .null)

/-- Modelled from the spec's words for the Response Normalizer (component 4.4):
apply the ordered rules, take the first that yields a non-empty string, else
fall back to the diagnostic string embedding the serialized response.  Declared
for comparison with `extractAgentText`, the definition taken from the source. -/
def extractTextSpec (j : Json) : String :=
  match j with
  | .obj kvs =>
    match rule1 kvs with
    | some s => s
    | none =>
      match rule2 kvs with
      | some s => s
      | none =>
        match rule3 kvs with
        | some s => s
        | none =>
          match rule4 kvs with
          | some s => s
          | none =>
            match rule5 kvs with
            | some s => s
            | none => noTextMsg j
  | _ => noTextMsg j

/-! ## Data model (models.py) -/

/-- One entry of a session's event log (the dictionaries appended by
`run_sse`; `rawResponse` is present only on agent-response events). -/
structure Event where
  id : String
  timestamp : String
  type : String
  role : String
  content : Json
  sessionId : String
  rawResponse : Option Json
deriving Repr

/-- models.py `Session`; `events` and `state` default to empty. -/
structure Session where
  id : String
  appName : String
  userId : String
  createdAt : String
  events : List Event
  state : List (String × Json)
deriving Repr

/-- `Session(id=..., appName=..., userId=..., createdAt=...)` with the
default empty event log and state. -/
def mkSession (id appName userId createdAt : String) : Session :=
  { id := id, appName := appName, userId := userId, createdAt := createdAt,
    events := [], state := [] }

/-- models.py `EvalCase`. -/
structure EvalCase where
  id : String
  conversation : List Json
  sessionInput : Json
  creationTimestamp : String
deriving Repr

/-- models.py `EvalSet`; `cases` defaults to empty. -/
structure EvalSet where
  id : String
  name : String
  cases : List EvalCase
deriving Repr

/-- models.py `Artifact`. -/
structure Artifact where
  id : String
  name : String
  content : Json
  version : String
  createdAt : String
deriving Repr

/-- The module-level `sessions` dictionary. -/
abbrev SessionStore := List (String × Session)

/-! ## Chat-path session resolution (`run_sse`, main.py lines 166-177) -/

/-- `run_sse`'s get-or-create step: the supplied session id is used verbatim as
the lookup key, and — when absent — as the storage key of a freshly constructed
session whose id is that same supplied string. -/
def run_sse_getOrCreate (sessions : SessionStore)
    (session_id app_name user_id now : String) : SessionStore × Session :=
  match getKey sessions session_id with
  | some s => (sessions, s)
  | none =>
    let s := mkSession session_id app_name user_id now
    (setKey sessions session_id s, s)

/-! ## Session fetch and delete (main.py lines 397-449) -/

/-- The sentinel values `get_session` treats as "unset". -/
def sentinels : List String := ["undefined", "null", ""]

/-- Result of the session-fetch endpoint: the returned session payload, a 404,
or a 403. -/
inductive GetResult where
  | ok : Session → GetResult
  | notFound : GetResult
  | forbidden : GetResult
deriving Repr

/-- `get_session` (main.py lines 397-435).  `fresh` stands for the
`str(uuid.uuid4())` drawn in the sentinel branch, `now` for `datetime.now()`.
Sentinel ids are handled first: a brand-new session is created and stored under
the fresh id.  Otherwise: 404 when absent, 403 when the stored user or app
differs, else the session. -/
def get_session (sessions : SessionStore)
    (app_name user_id session_id fresh now : String) : GetResult × SessionStore :=
  if session_id ∈ sentinels then
    let s := mkSession fresh app_name user_id now
    (.ok s, setKey sessions fresh s)
  else
    match getKey sessions session_id with
    | none => (.notFound, sessions)
    | some s =>
      if s.userId ≠ user_id ∨ s.appName ≠ app_name then (.forbidden, sessions)
      else (.ok s, sessions)

/-- Result of the session-delete endpoint. -/
inductive DelResult where
  | deleted : DelResult
  | notFound : DelResult
  | forbidden : DelResult
deriving Repr, DecidableEq

/-- `delete_session` (main.py lines 437-449): 404 when absent, 403 on
owner/app mismatch (store untouched in both cases), else the entry is removed.
There is no sentinel branch here. -/
def delete_session (sessions : SessionStore)
    (app_name user_id session_id : String) : DelResult × SessionStore :=
  match getKey sessions session_id with
  | none => (.notFound, sessions)
  | some s =>
    if s.userId ≠ user_id ∨ s.appName ≠ app_name then (.forbidden, sessions)
    else (.deleted, delKey sessions session_id)

/-! ## Frame formatting, event append and state update
(`run_sse`, main.py lines 264-362) -/

/-- One streamed frame: the code always builds
`\x7b"id": ..., "author": "model", "content": \x7b"parts": [\x7b"text": ...\x7d]\x7d\x7d`. -/
structure Frame where
  id : String
  text : Json
deriving Repr

/-- The JSON object serialized for a frame. -/
def frameJson (f : Frame) : Json :=
  .obj [("id", .str f.id), ("author", .str "model"),
        ("content", .obj [("parts", .arr [.obj [("text", f.text)]])])]

/-- The state-snapshot truncation
`agent_text[:100] + "..." if len(agent_text) > 100 else agent_text` under
Python semantics: `len` raises on numbers/booleans/None; slicing a dictionary
raises; concatenating a sliced list with the ellipsis string raises. -/
def truncatePy (t : Json) : Except PyErr Json :=
  match pyLen t with
  | .error e => .error e
  | .ok n =>
    if n > 100 then
      match t with
      | .str s => .ok (.str (s.take 100 ++ "..."))
      | .arr _ => .error (.typeError "can only concatenate list to list")
      | _ => .error (.typeError "unhashable slice")
    else .ok t

/-- The HTTP-200 branch of `generate_sse_response` (main.py lines 224-318),
after the remote response has been decoded: extract `agent_text`, build the
formatted frame, append the agent event, replace the session state with the
three-entry snapshot, and yield the frame; any exception in that block is
converted by the `except` handler into a parse-error frame, keeping whatever
mutations already happened (the event append precedes the state update).
`eid` and `fid` stand for the two `str(uuid.uuid4())` draws, `now` for
`datetime.now().isoformat()`. -/
def successTurn (resp : Json) (sess : Session) (eid fid now : String) :
    Frame × Session :=
  match extractAgentText resp with
  | .error e => ({ id := fid, text := .str ("Error parsing response: " ++ e.msg) }, sess)
  | .ok t =>
    let content : Json := .obj [("parts", .arr [.obj [("text", t)]])]
    let ev : Event :=
      { id := eid, timestamp := now, type := "agent_response", role := "assistant",
        content := content, sessionId := sess.id, rawResponse := some resp }
    let sess1 := { sess with events := sess.events ++ [ev] }
    match truncatePy t with
    | .error e =>
      ({ id := fid, text := .str ("Error parsing response: " ++ e.msg) }, sess1)
    | .ok tr =>
      let sess2 :=
        { sess1 with
          state := [("lastActivity", .str now),
                    ("messageCount", .num (sess1.events.length : Int)),
                    ("lastAgentResponse", tr)] }
      ({ id := fid, text := t }, sess2)

/-- Outcome of the outbound call to the remote agent as observed by
`generate_sse_response`: a decoded 200 body, a non-200 status, an
`httpx.RequestError` (network failure or timeout), or any other exception
caught by the generic handler. -/
inductive Outcome where
  | success : Json → Outcome
  | httpError : Nat → String → Outcome
  | requestError : String → Outcome
  | otherError : String → Outcome

/-- The frame emitted (and the session left behind) by one chat turn, for each
outcome of the outbound call (main.py lines 224-362): the 200 branch runs
`successTurn`; a non-200 status yields the `Agent error: <status>` frame; a
request error yields the fixed could-not-connect frame; any other exception
yields the `Unexpected error: ...` frame.  Every branch yields exactly one
frame. -/
def turnOutput (o : Outcome) (sess : Session) (eid fid now : String) :
    Frame × Session :=
  match o with
  | .success resp => successTurn resp sess eid fid now
  | .httpError status _ =>
    ({ id := fid, text := .str ("Agent error: " ++ toString status) }, sess)
  | .requestError _ =>
    ({ id := fid,
       text := .str "Could not connect to remote agent. Please check if the agent is running on port 8080." },
     sess)
  | .otherError m =>
    ({ id := fid, text := .str ("Unexpected error: " ++ m) }, sess)

/-! ## Outbound envelope text (`run_sse`, main.py line 201) -/

/-- The message-part text placed in the outbound envelope:
`new_message.get("parts", [\x7b\x7d])[0].get("text", "Hello") if
new_message.get("parts") else new_message.get("text", "Hello")`.
The `"Hello"` defaults apply only when the probed key is absent. -/
def envelopeText (newMessage : Json) : Except PyErr Json :=
  match newMessage with
  | .obj kvs =>
    let parts := (getKey kvs "parts").getD .null
    if truthy parts then
      match pyIndex ((getKey kvs "parts").getD (.arr [.obj []])) 0 with
      | .error e => .error e
      | .ok p0 => pyGetD p0 "text" (.str "Hello")
    else
      .ok ((getKey kvs "text").getD (.str "Hello"))
  | _ => .error (.attributeError "object has no attribute get")

/-! ## Eval endpoints (main.py lines 466-495) -/

/-- The process-global in-memory registries of main.py (lines 51-54). -/
structure GlobalState where
  sessions : SessionStore
  eval_sets : List (String × EvalSet)
  apps : List String
  artifacts : List (String × Artifact)

/-- `add_session_to_eval` (main.py lines 491-495): the handler body consists of
a comment and `return \x7b"status": "added"\x7d`; it reads and writes no
registry. -/
def add_session_to_eval (app_name eval_set_id : String) (request : Json)
    (st : GlobalState) : Json × GlobalState :=
  ((.obj [("status", .str "added")]), st)

/-- The `\x7b"id", "name", "caseCount"\x7d` summary built by `get_eval_sets`. -/
def evalSetSummary (es : EvalSet) : Json :=
  .obj [("id", .str es.id), ("name", .str es.name),
        ("caseCount", .num (es.cases.length : Int))]

/-- `get_eval_sets` (main.py lines 466-473): summarizes every entry of the
process-global `eval_sets` mapping; `app_name` is never consulted. -/
def get_eval_sets (app_name : String) (eval_sets : List (String × EvalSet)) :
    Json :=
  .obj [("evalSets", .arr (eval_sets.map (fun p => evalSetSummary p.2)))]

/-- A store whose single entry sits under the sentinel key `"undefined"` and is
owned by user `alice` (reachable: a chat request with `sessionId` equal to
`"undefined"` makes `run_sse` store the session under that key). -/
def sentinelStoreAlice : SessionStore :=
  [("undefined", mkSession "undefined" "app1" "alice" "t0")]

/-- A second such store, owned by `carol`, for the delete/get scenario. -/
def sentinelStoreCarol : SessionStore :=
  [("undefined", mkSession "undefined" "app1" "carol" "t0")]

/-! ## Store lemmas -/

theorem getKey_setKey_self {α : Type} (l : List (String × α)) (k : String) (v : α) :
    getKey (setKey l k v) k = some v := by
  induction l with
  | nil => simp [setKey, getKey]
  | cons p t ih =>
    obtain ⟨k', v'⟩ := p
    by_cases h : k' = k
    · subst h
      simp [setKey, getKey]
    · simp [setKey, getKey, h, ih]

theorem getKey_setKey_ne {α : Type} (l : List (String × α)) (k k' : String) (v : α)
    (h : k' ≠ k) : getKey (setKey l k v) k' = getKey l k' := by
  induction l with
  | nil => simp [setKey, getKey, Ne.symm h]
  | cons p t ih =>
    obtain ⟨k₀, v₀⟩ := p
    by_cases h0 : k₀ = k
    · subst h0
      simp [setKey, getKey, Ne.symm h]
    · simp [setKey, getKey, h0, ih]

theorem getKey_delKey_self {α : Type} (l : List (String × α)) (k : String) :
    getKey (delKey l k) k = none := by
  induction l with
  | nil => simp [delKey, getKey]
  | cons p t ih =>
    obtain ⟨k', v'⟩ := p
    by_cases h : k' = k
    · subst h
      simpa [delKey, getKey] using ih
    · simp [delKey, getKey, h] at ih ⊢
      exact ih

/-! ## C1 — sentinel session ids on the chat path -/

/-- C1 counterexample: a chat request whose supplied session id is the sentinel
`"undefined"` does NOT get a brand-new server-generated id — `run_sse` uses the
sentinel itself as the new session's id and as its storage key in the session
mapping. -/
theorem run_sse_sentinel_key_counterexample :
    (run_sse_getOrCreate [] "undefined" "app1" "user1" "t0").2.id = "undefined" ∧
    getKey (run_sse_getOrCreate [] "undefined" "app1" "user1" "t0").1 "undefined" =
      some (mkSession "undefined" "app1" "user1" "t0") :=
  ⟨rfl, rfl⟩

/-- C1 (amended): the chat operation itself never special-cases sentinels — it
uses the supplied session id verbatim as lookup and storage key, creating the
session under that very id when absent.  It is the session-fetch operation
`get_session` that, for a sentinel id, synthesizes a brand-new server-generated
id distinct from the sentinel, stores the fresh session under the new id, and
leaves the sentinel key of the mapping untouched. -/
theorem sentinel_session_id_handling :
    (∀ (store : SessionStore) (sid app user now : String),
        getKey store sid = none →
        (run_sse_getOrCreate store sid app user now).2.id = sid ∧
        getKey (run_sse_getOrCreate store sid app user now).1 sid =
          some (mkSession sid app user now)) ∧
    (∀ (store : SessionStore) (app user sid fresh now : String),
        sid ∈ sentinels → fresh ∉ sentinels →
        ∃ s : Session,
          (get_session store app user sid fresh now).1 = .ok s ∧
          s.id = fresh ∧ fresh ≠ sid ∧
          getKey (get_session store app user sid fresh now).2 fresh = some s ∧
          getKey (get_session store app user sid fresh now).2 sid = getKey store sid) := by
  constructor
  · intro store sid app user now h
    unfold run_sse_getOrCreate
    rw [h]
    exact ⟨rfl, getKey_setKey_self store sid _⟩
  · intro store app user sid fresh now hs hf
    have hne : fresh ≠ sid := fun h => hf (h ▸ hs)
    refine ⟨mkSession fresh app user now, ?_, rfl, hne, ?_, ?_⟩
    · simp [get_session, hs]
    · simp [get_session, hs, getKey_setKey_self]
    · simp [get_session, hs, getKey_setKey_ne _ _ _ _ (Ne.symm hne)]

/-- C1 witness: both halves of the sentinel-handling theorem at concrete
inputs. -/
theorem sentinel_session_id_handling_witness :
    ((run_sse_getOrCreate [] "abc" "appA" "userA" "t0").2.id = "abc" ∧
      getKey (run_sse_getOrCreate [] "abc" "appA" "userA" "t0").1 "abc" =
        some (mkSession "abc" "appA" "userA" "t0")) ∧
    (∃ s : Session,
      (get_session [] "appA" "userA" "null" "fresh-1" "t1").1 = .ok s ∧
      s.id = "fresh-1" ∧ "fresh-1" ≠ "null" ∧
      getKey (get_session [] "appA" "userA" "null" "fresh-1" "t1").2 "fresh-1" = some s ∧
      getKey (get_session [] "appA" "userA" "null" "fresh-1" "t1").2 "null" =
        getKey ([] : SessionStore) "null") :=
  ⟨sentinel_session_id_handling.1 [] "abc" "appA" "userA" "t0" rfl,
   sentinel_session_id_handling.2 [] "appA" "userA" "null" "fresh-1" "t1"
     (by decide) (by decide)⟩

/-! ## C5 — fetch contract -/

/-- C5 counterexample: the id `"undefined"` is present in the store and owned
by `alice`, yet fetching it as user `bob` does not return Forbidden — the
sentinel branch runs first and returns a brand-new session. -/
theorem get_session_sentinel_owner_counterexample :
    getKey sentinelStoreAlice "undefined" =
      some (mkSession "undefined" "app1" "alice" "t0") ∧
    ("alice" : String) ≠ "bob" ∧
    (get_session sentinelStoreAlice "app1" "bob" "undefined" "f1" "t1").1 =
      .ok (mkSession "f1" "app1" "bob" "t1") ∧
    (get_session sentinelStoreAlice "app1" "bob" "undefined" "f1" "t1").1 ≠
      .forbidden := by
  refine ⟨rfl, by decide, rfl, ?_⟩
  intro h
  rw [show (get_session sentinelStoreAlice "app1" "bob" "undefined" "f1" "t1").1 =
        .ok (mkSession "f1" "app1" "bob" "t1") from rfl] at h
  exact GetResult.noConfusion h

/-- C5 (amended): for every NON-sentinel id, `get_session` returns NotFound
when the id is absent, Forbidden when the stored session's user or app differs
from the requested ones, and the session itself when both match — the store
untouched in each case.  (A sentinel id present in the store bypasses the
ownership check, as the counterexample shows.) -/
theorem get_session_nonsentinel_contract (store : SessionStore)
    (app user sid fresh now : String) (hs : sid ∉ sentinels) :
    (getKey store sid = none →
      get_session store app user sid fresh now = (.notFound, store)) ∧
    (∀ s : Session, getKey store sid = some s →
      ((s.userId ≠ user ∨ s.appName ≠ app) →
        get_session store app user sid fresh now = (.forbidden, store)) ∧
      (s.userId = user → s.appName = app →
        get_session store app user sid fresh now = (.ok s, store))) := by
  constructor
  · intro h
    simp [get_session, hs, h]
  · intro s h
    constructor
    · intro hm
      simp [get_session, hs, h, hm]
    · intro hu ha
      simp [get_session, hs, h, hu, ha]

/-- C5 witness: a non-sentinel id stored under `alice` fetched as `bob` is
Forbidden, with the store unchanged. -/
theorem get_session_nonsentinel_contract_witness :
    get_session [("sid1", mkSession "sid1" "appA" "alice" "t0")]
        "appA" "bob" "sid1" "f" "t1" =
      (.forbidden, [("sid1", mkSession "sid1" "appA" "alice" "t0")]) :=
  ((get_session_nonsentinel_contract
      [("sid1", mkSession "sid1" "appA" "alice" "t0")]
      "appA" "bob" "sid1" "f" "t1" (by decide)).2
    (mkSession "sid1" "appA" "alice" "t0") rfl).1 (Or.inl (by decide))

/-! ## C6 — delete contract -/

/-- C6 counterexample: after a successful delete of the stored id
`"undefined"`, a subsequent fetch of the same id does not return NotFound —
the sentinel branch of `get_session` manufactures and returns a brand-new
session instead. -/
theorem delete_then_get_sentinel_counterexample :
    (delete_session sentinelStoreCarol "app1" "carol" "undefined").1 = .deleted ∧
    getKey (delete_session sentinelStoreCarol "app1" "carol" "undefined").2
      "undefined" = none ∧
    (get_session (delete_session sentinelStoreCarol "app1" "carol" "undefined").2
        "app1" "carol" "undefined" "f2" "t2").1 =
      .ok (mkSession "f2" "app1" "carol" "t2") ∧
    (get_session (delete_session sentinelStoreCarol "app1" "carol" "undefined").2
        "app1" "carol" "undefined" "f2" "t2").1 ≠ .notFound := by
  refine ⟨rfl, rfl, rfl, ?_⟩
  intro h
  rw [show (get_session (delete_session sentinelStoreCarol "app1" "carol" "undefined").2
        "app1" "carol" "undefined" "f2" "t2").1 =
      .ok (mkSession "f2" "app1" "carol" "t2") from rfl] at h
  exact GetResult.noConfusion h

/-- C6 (amended): a successful delete removes the id from the session mapping,
and a subsequent fetch of the same id returns NotFound provided the id is not
a sentinel (a deleted sentinel id is re-synthesized by the fetch instead); a
delete that returns NotFound or Forbidden leaves the mapping completely
unchanged. -/
theorem delete_session_contract (store : SessionStore)
    (app user sid fresh now : String) :
    (∀ s : Session, getKey store sid = some s → s.userId = user → s.appName = app →
      (delete_session store app user sid).1 = .deleted ∧
      getKey (delete_session store app user sid).2 sid = none ∧
      (sid ∉ sentinels →
        (get_session (delete_session store app user sid).2 app user sid fresh now).1 =
          .notFound)) ∧
    ((delete_session store app user sid).1 = .notFound →
      (delete_session store app user sid).2 = store) ∧
    ((delete_session store app user sid).1 = .forbidden →
      (delete_session store app user sid).2 = store) := by
  refine ⟨?_, ?_, ?_⟩
  · intro s h hu ha
    have hdel : delete_session store app user sid = (.deleted, delKey store sid) := by
      simp [delete_session, h, hu, ha]
    rw [hdel]
    exact ⟨rfl, getKey_delKey_self store sid,
      fun hns => by simp [get_session, hns, getKey_delKey_self]⟩
  · cases h : getKey store sid with
    | none =>
      intro _
      simp [delete_session, h]
    | some s =>
      by_cases hm : s.userId ≠ user ∨ s.appName ≠ app
      · intro _
        simp [delete_session, h, hm]
      · intro hc
        exact absurd hc (by simp [delete_session, h, hm])
  · cases h : getKey store sid with
    | none =>
      intro hc
      exact absurd hc (by simp [delete_session, h])
    | some s =>
      by_cases hm : s.userId ≠ user ∨ s.appName ≠ app
      · intro _
        simp [delete_session, h, hm]
      · intro hc
        exact absurd hc (by simp [delete_session, h, hm])

/-- C6 witness: deleting a stored non-sentinel session removes it and a
subsequent fetch of the same id is NotFound. -/
theorem delete_session_contract_witness :
    (delete_session [("sid2", mkSession "sid2" "appA" "dora" "t0")]
        "appA" "dora" "sid2").1 = .deleted ∧
    getKey (delete_session [("sid2", mkSession "sid2" "appA" "dora" "t0")]
        "appA" "dora" "sid2").2 "sid2" = none ∧
    (get_session (delete_session [("sid2", mkSession "sid2" "appA" "dora" "t0")]
          "appA" "dora" "sid2").2 "appA" "dora" "sid2" "f" "t1").1 = .notFound :=
  (by
    have h := (delete_session_contract
        [("sid2", mkSession "sid2" "appA" "dora" "t0")]
        "appA" "dora" "sid2" "f" "t1").1
        (mkSession "sid2" "appA" "dora" "t0") rfl rfl rfl
    exact ⟨h.1, h.2.1, h.2.2 (by decide)⟩)

/-! ## C9 — eval-set add is a stub -/

/-- C9: `add_session_to_eval` returns the status `"added"` and leaves every
registry — sessions, eval sets, apps, artifacts — completely unchanged, for
every app name, eval-set id and request body. -/
theorem add_session_to_eval_noop (app_name eval_set_id : String) (request : Json)
    (st : GlobalState) :
    (add_session_to_eval app_name eval_set_id request st).1 =
      .obj [("status", .str "added")] ∧
    (add_session_to_eval app_name eval_set_id request st).2 = st ∧
    (add_session_to_eval app_name eval_set_id request st).2.eval_sets =
      st.eval_sets ∧
    (add_session_to_eval app_name eval_set_id request st).2.sessions =
      st.sessions ∧
    (add_session_to_eval app_name eval_set_id request st).2.artifacts =
      st.artifacts :=
  ⟨rfl, rfl, rfl, rfl, rfl⟩

/-! ## C10 — eval-set listing ignores the app name -/

/-- C10: `get_eval_sets` does not depend on its app-name argument — any two
app names produce the identical summary list, drawn by mapping over the whole
global eval-set mapping with no per-app filtering. -/
theorem get_eval_sets_app_independent (a1 a2 : String)
    (es : List (String × EvalSet)) :
    get_eval_sets a1 es = get_eval_sets a2 es ∧
    get_eval_sets a1 es =
      .obj [("evalSets", .arr (es.map (fun p => evalSetSummary p.2)))] :=
  ⟨rfl, rfl⟩

/-! ## C4 — state snapshot after an agent turn -/

/-- C4: after a successful agent turn whose extracted text is the string `t`,
the session's state is fully replaced — independently of any prior state — by
the three-entry mapping of last-activity timestamp, total event count of the
session (the log after the agent event is appended), and the extracted text,
truncated to its first 100 characters followed by `"..."` when longer than 100
characters and stored verbatim otherwise. -/
theorem agent_turn_state_snapshot (sess : Session) (resp : Json)
    (eid fid now t : String) (h : extractAgentText resp = .ok (.str t)) :
    ∃ tr : String,
      (successTurn resp sess eid fid now).2.state =
        [("lastActivity", Json.str now),
         ("messageCount", Json.num ((sess.events.length + 1 : Nat) : Int)),
         ("lastAgentResponse", Json.str tr)] ∧
      (t.length > 100 → tr = t.take 100 ++ "...") ∧
      (t.length ≤ 100 → tr = t) := by
  by_cases hl : t.length > 100
  · refine ⟨t.take 100 ++ "...", ?_, fun _ => rfl,
      fun hc => absurd hl (Nat.not_lt.mpr hc)⟩
    unfold successTurn
    rw [h]
    simp [truncatePy, pyLen, hl, List.length_append]
  · refine ⟨t, ?_, fun hc => absurd hc hl, fun _ => rfl⟩
    unfold successTurn
    rw [h]
    simp [truncatePy, pyLen, hl, List.length_append]

/-- C4 witness: a concrete turn whose extracted text is `"hello"`. -/
theorem agent_turn_state_snapshot_witness :
    ∃ tr : String,
      (successTurn (.obj [("text", .str "hello")]) (mkSession "s1" "appA" "u1" "t0")
          "e1" "f1" "t1").2.state =
        [("lastActivity", Json.str "t1"),
         ("messageCount",
          Json.num (((mkSession "s1" "appA" "u1" "t0").events.length + 1 : Nat) : Int)),
         ("lastAgentResponse", Json.str tr)] ∧
      (("hello" : String).length > 100 → tr = ("hello" : String).take 100 ++ "...") ∧
      (("hello" : String).length ≤ 100 → tr = "hello") :=
  agent_turn_state_snapshot (mkSession "s1" "appA" "u1" "t0")
    (.obj [("text", .str "hello")]) "e1" "f1" "t1" "hello" rfl

/-! ## C7 — every outcome yields one frame -/

/-- C7 counterexample: when the remote agent answers `200` with
`\x7b"text": ["hola"]\x7d`, the emitted frame has the required shape but its
`text` field is the JSON array `["hola"]`, not a string. -/
theorem frame_nonstring_text_counterexample :
    frameJson (turnOutput (.success (.obj [("text", .arr [.str "hola"])]))
        (mkSession "s1" "appA" "u1" "t0") "e1" "f1" "t1").1 =
      .obj [("id", .str "f1"), ("author", .str "model"),
            ("content", .obj [("parts", .arr [.obj [("text", .arr [.str "hola"])]])])] ∧
    Json.isStr (.arr [.str "hola"]) = false :=
  ⟨rfl, rfl⟩

/-- C7 (amended): for every outcome of the outbound call — success, non-200,
network/timeout failure, or any other caught exception — the turn emits exactly
one frame whose JSON shape is
`\x7b id, author: "model", content: \x7b parts: [\x7b text \x7d] \x7d \x7d`;
the `text` field is a string in every branch except that, on success, a
non-string value extracted from the response is carried through verbatim.  No
outcome is surfaced as a hard failure. -/
theorem turn_always_emits_frame (o : Outcome) (sess : Session)
    (eid fid now : String) :
    ∃ t : Json,
      frameJson (turnOutput o sess eid fid now).1 =
        .obj [("id", .str fid), ("author", .str "model"),
              ("content", .obj [("parts", .arr [.obj [("text", t)]])])] ∧
      (t.isStr = true ∨
        ∃ resp j, o = .success resp ∧ extractAgentText resp = .ok j ∧
          j.isStr = false ∧ t = j) := by
  cases o with
  | success resp =>
    cases h : extractAgentText resp with
    | error e =>
      exact ⟨.str ("Error parsing response: " ++ e.msg),
        by simp [turnOutput, successTurn, h, frameJson], Or.inl rfl⟩
    | ok j =>
      cases ht : truncatePy j with
      | error e =>
        exact ⟨.str ("Error parsing response: " ++ e.msg),
          by simp [turnOutput, successTurn, h, ht, frameJson], Or.inl rfl⟩
      | ok tr =>
        by_cases hj : j.isStr = true
        · exact ⟨j, by simp [turnOutput, successTurn, h, ht, frameJson], Or.inl hj⟩
        · exact ⟨j, by simp [turnOutput, successTurn, h, ht, frameJson],
            Or.inr ⟨resp, j, rfl, h, by simpa using hj, rfl⟩⟩
  | httpError status body => exact ⟨_, rfl, Or.inl rfl⟩
  | requestError m => exact ⟨_, rfl, Or.inl rfl⟩
  | otherError m => exact ⟨_, rfl, Or.inl rfl⟩

/-! ## C8 — outbound envelope text -/

/-- C8 counterexample: a `newMessage` carrying an explicitly empty
`parts[0].text` puts the empty string — not the `"Hello"` fallback — into the
outbound envelope. -/
theorem envelope_empty_text_counterexample :
    envelopeText (.obj [("parts", .arr [.obj [("text", .str "")]])]) =
      .ok (.str "") ∧
    ("" : String) ≠ "Hello" :=
  ⟨rfl, by decide⟩

/-- C8 (amended): the envelope's message part text equals the caller's user
text verbatim — including an explicitly empty string — whether it arrives in
`parts[0].text` or in top-level `text`; the literal `"Hello"` is used only when
the probed text KEY is absent (missing `text` in `parts[0]` when `parts` is
non-empty, or a `newMessage` with neither truthy `parts` nor a `text` key). -/
theorem envelope_text_contract :
    (∀ (t : String) (rest : List Json),
      envelopeText (.obj [("parts", .arr (.obj [("text", .str t)] :: rest))]) =
        .ok (.str t)) ∧
    (∀ t : String, envelopeText (.obj [("text", .str t)]) = .ok (.str t)) ∧
    envelopeText (.obj []) = .ok (.str "Hello") ∧
    (∀ rest : List Json,
      envelopeText (.obj [("parts", .arr (.obj [] :: rest))]) =
        .ok (.str "Hello")) ∧
    envelopeText (.obj [("parts", .arr []), ("text", .str "fallthrough")]) =
      .ok (.str "fallthrough") :=
  ⟨fun t rest => rfl, fun t => rfl, rfl, fun rest => rfl, rfl⟩

/-! ## Extraction-cascade lemmas (towards C2 and C3) -/

theorem leafShape (o : Option Json) (h : leafOk o = true) :
    o.getD .null = .null ∨ ∃ s, o.getD .null = .str s := by
  match o with
  | none => exact Or.inl rfl
  | some .null => exact Or.inl rfl
  | some (.str s) => exact Or.inr ⟨s, rfl⟩
  | some (.bool b) => simp [leafOk] at h
  | some (.num n) => simp [leafOk] at h
  | some (.arr l) => simp [leafOk] at h
  | some (.obj l) => simp [leafOk] at h

theorem strRule_truthy (t : Json) (h : t = .null ∨ ∃ s, t = .str s) :
    (truthy t = true → ∃ s, t = .str s ∧ s ≠ "" ∧ strRule t = some s) ∧
    (truthy t = false → strRule t = none) := by
  rcases h with rfl | ⟨s, rfl⟩
  · exact ⟨fun ht => by simp [truthy] at ht, fun _ => rfl⟩
  · constructor
    · intro ht
      have hs : s ≠ "" := by simpa [truthy] using ht
      exact ⟨s, rfl, hs, by simp [strRule, hs]⟩
    · intro ht
      have hs : s = "" := by simpa [truthy] using ht
      simp [strRule, hs]

theorem strRule_some_ne (t : Json) (s : String) (h : strRule t = some s) :
    s ≠ "" := by
  match t with
  | .null | .bool _ | .num _ | .arr _ | .obj _ => simp [strRule] at h
  | .str s' =>
    by_cases h0 : s' = ""
    · simp [strRule, h0] at h
    · rw [strRule] at h
      simp [h0] at h
      exact h ▸ h0

theorem rule1_some_ne (kvs : List (String × Json)) (s : String)
    (h : rule1 kvs = some s) : s ≠ "" := by
  unfold rule1 at h
  repeat' split at h
  all_goals first
    | exact strRule_some_ne _ _ h
    | simp at h

theorem rule3_some_ne (kvs : List (String × Json)) (s : String)
    (h : rule3 kvs = some s) : s ≠ "" := by
  unfold rule3 at h
  repeat' split at h
  all_goals first
    | exact strRule_some_ne _ _ h
    | simp at h

theorem rule4_some_ne (kvs : List (String × Json)) (s : String)
    (h : rule4 kvs = some s) : s ≠ "" := by
  unfold rule4 at h
  repeat' split at h
  all_goals first
    | exact strRule_some_ne _ _ h
    | simp at h

theorem noTextMsg_ne_empty (j : Json) : noTextMsg j ≠ "" := by
  intro h
  have h2 : (noTextMsg j).length = 0 := by rw [h]; rfl
  rw [noTextMsg, String.length_append] at h2
  have h3 : 0 < ("Received response but no text field found. Raw response: " : String).length := by
    decide
  omega

theorem extractTextSpec_ne_empty (j : Json) : extractTextSpec j ≠ "" := by
  unfold extractTextSpec
  split
  case _ kvs =>
    split
    case _ s hs => exact rule1_some_ne kvs s hs
    case _ =>
      split
      case _ s hs => exact strRule_some_ne _ s hs
      case _ =>
        split
        case _ s hs => exact rule3_some_ne kvs s hs
        case _ =>
          split
          case _ s hs => exact rule4_some_ne kvs s hs
          case _ =>
            split
            case _ s hs => exact strRule_some_ne _ s hs
            case _ => exact noTextMsg_ne_empty _
  case _ => exact noTextMsg_ne_empty j

theorem pattern1_wellShaped (kvs : List (String × Json))
    (h : resultOk (getKey kvs "result") = true) :
    ∃ t, pattern1 kvs = .ok t ∧ (t = .null ∨ ∃ s, t = .str s) ∧
      rule1 kvs = strRule t := by
  cases hr : getKey kvs "result" with
  | none =>
    refine ⟨.null, ?_, Or.inl rfl, ?_⟩
    · simp [pattern1, hr, pyGetD, getKey, truthy]
    · simp [rule1, hr, strRule]
  | some rj =>
    rw [hr] at h
    cases rj with
    | obj rkvs =>
      rw [resultOk] at h
      cases ha : getKey rkvs "artifacts" with
      | none =>
        refine ⟨.null, ?_, Or.inl rfl, ?_⟩
        · simp [pattern1, hr, pyGetD, ha, truthy]
        · simp [rule1, hr, ha, strRule]
      | some aj =>
        rw [ha] at h
        cases aj with
        | arr al =>
          cases al with
          | nil =>
            refine ⟨.null, ?_, Or.inl rfl, ?_⟩
            · simp [pattern1, hr, pyGetD, ha, truthy]
            · simp [rule1, hr, ha, strRule]
          | cons a arest =>
            rw [artifactsOk] at h
            cases a with
            | obj akvs =>
              rw [artifactHeadOk] at h
              cases hp : getKey akvs "parts" with
              | none =>
                refine ⟨.null, ?_, Or.inl rfl, ?_⟩
                · simp [pattern1, hr, pyGetD, ha, hp, truthy, pyLen, pyIndex]
                · simp [rule1, hr, ha, hp, strRule]
              | some pj =>
                rw [hp] at h
                cases pj with
                | arr pl =>
                  cases pl with
                  | nil =>
                    refine ⟨.null, ?_, Or.inl rfl, ?_⟩
                    · simp [pattern1, hr, pyGetD, ha, hp, truthy, pyLen, pyIndex]
                    · simp [rule1, hr, ha, hp, strRule]
                  | cons p prest =>
                    rw [partsOk] at h
                    cases p with
                    | obj pkvs =>
                      rw [partHeadOk] at h
                      refine ⟨(getKey pkvs "text").getD .null, ?_,
                        leafShape _ h, ?_⟩
                      · simp [pattern1, hr, pyGetD, ha, hp, truthy, pyLen, pyIndex]
                      · simp [rule1, hr, ha, hp]
                    | null => simp [partHeadOk] at h
                    | bool b => simp [partHeadOk] at h
                    | num n => simp [partHeadOk] at h
                    | str s => simp [partHeadOk] at h
                    | arr l => simp [partHeadOk] at h
                | null => simp [partsOk] at h
                | bool b => simp [partsOk] at h
                | num n => simp [partsOk] at h
                | str s => simp [partsOk] at h
                | obj l => simp [partsOk] at h
            | null => simp [artifactHeadOk] at h
            | bool b => simp [artifactHeadOk] at h
            | num n => simp [artifactHeadOk] at h
            | str s => simp [artifactHeadOk] at h
            | arr l => simp [artifactHeadOk] at h
        | null => simp [artifactsOk] at h
        | bool b => simp [artifactsOk] at h
        | num n => simp [artifactsOk] at h
        | str s => simp [artifactsOk] at h
        | obj l => simp [artifactsOk] at h
    | null => simp [resultOk] at h
    | bool b => simp [resultOk] at h
    | num n => simp [resultOk] at h
    | str s => simp [resultOk] at h
    | arr l => simp [resultOk] at h

theorem contentStage (kvs : List (String × Json))
    (h : contentOk (getKey kvs "content") = true) :
    ∃ t, pyGetD ((getKey kvs "content").getD (.obj [])) "text" .null = .ok t ∧
      (t = .null ∨ ∃ s, t = .str s) ∧ rule3 kvs = strRule t := by
  cases hc : getKey kvs "content" with
  | none =>
    exact ⟨.null, by simp [hc, pyGetD, getKey], Or.inl rfl,
      by simp [rule3, hc, strRule]⟩
  | some cj =>
    rw [hc] at h
    cases cj with
    | obj ckvs =>
      rw [contentOk] at h
      exact ⟨(getKey ckvs "text").getD .null, by simp [hc, pyGetD],
        leafShape _ h, by simp [rule3, hc]⟩
    | null => simp [contentOk] at h
    | bool b => simp [contentOk] at h
    | num n => simp [contentOk] at h
    | str s => simp [contentOk] at h
    | arr l => simp [contentOk] at h

theorem messageStage (kvs : List (String × Json))
    (h : messageOk (getKey kvs "message") = true) :
    ∃ t, pyGetD ((getKey kvs "message").getD (.obj [])) "content" .null = .ok t ∧
      (t = .null ∨ ∃ s, t = .str s) ∧ rule4 kvs = strRule t := by
  cases hm : getKey kvs "message" with
  | none =>
    exact ⟨.null, by simp [hm, pyGetD, getKey], Or.inl rfl,
      by simp [rule4, hm, strRule]⟩
  | some mj =>
    rw [hm] at h
    cases mj with
    | obj mkvs =>
      rw [messageOk] at h
      exact ⟨(getKey mkvs "content").getD .null, by simp [hm, pyGetD],
        leafShape _ h, by simp [rule4, hm]⟩
    | null => simp [messageOk] at h
    | bool b => simp [messageOk] at h
    | num n => simp [messageOk] at h
    | str s => simp [messageOk] at h
    | arr l => simp [messageOk] at h

/-- The extraction block of `run_sse` refines the spec's ordered-rule
normalizer on every well-shaped response: it returns (without raising) exactly
the string the spec's rules select. -/
theorem extract_eq_spec (j : Json) (h : wellShaped j = true) :
    extractAgentText j = .ok (.str (extractTextSpec j)) := by
  cases j with
  | obj kvs =>
    simp only [wellShaped, Bool.and_eq_true] at h
    obtain ⟨⟨⟨⟨h1, h2⟩, h3⟩, h4⟩, h5⟩ := h
    obtain ⟨t1, hp1, hs1, hr1⟩ := pattern1_wellShaped kvs h1
    by_cases ht1 : truthy t1 = true
    · obtain ⟨s, rfl, hsne, hrs⟩ := (strRule_truthy t1 hs1).1 ht1
      simp [extractAgentText, hp1, ht1, extractTextSpec, hr1, hrs]
    · have ht1f : truthy t1 = false := by simpa using ht1
      have hr1n : rule1 kvs = none := by
        rw [hr1]; exact (strRule_truthy t1 hs1).2 ht1f
      have hs2 := leafShape _ h2
      by_cases ht2 : truthy ((getKey kvs "text").getD .null) = true
      · obtain ⟨s, hts, hsne, hrs⟩ := (strRule_truthy _ hs2).1 ht2
        have hr2s : rule2 kvs = some s := by rw [rule2]; exact hrs
        have hts2 : truthy (Json.str s) = true := by simp [truthy, hsne]
        simp [extractAgentText, hp1, ht1f, hts, hts2, extractTextSpec, hr1n, hr2s]
      · have ht2f : truthy ((getKey kvs "text").getD .null) = false := by
          simpa using ht2
        have hr2n : rule2 kvs = none := by
          rw [rule2]; exact (strRule_truthy _ hs2).2 ht2f
        obtain ⟨t3, hp3, hs3, hr3⟩ := contentStage kvs h3
        by_cases ht3 : truthy t3 = true
        · obtain ⟨s, rfl, hsne, hrs⟩ := (strRule_truthy t3 hs3).1 ht3
          have hr3s : rule3 kvs = some s := by rw [hr3]; exact hrs
          simp [extractAgentText, hp1, ht1f, ht2f, hp3, ht3, extractTextSpec,
            hr1n, hr2n, hr3s]
        · have ht3f : truthy t3 = false := by simpa using ht3
          have hr3n : rule3 kvs = none := by
            rw [hr3]; exact (strRule_truthy t3 hs3).2 ht3f
          obtain ⟨t4, hp4, hs4, hr4⟩ := messageStage kvs h4
          by_cases ht4 : truthy t4 = true
          · obtain ⟨s, rfl, hsne, hrs⟩ := (strRule_truthy t4 hs4).1 ht4
            have hr4s : rule4 kvs = some s := by rw [hr4]; exact hrs
            simp [extractAgentText, hp1, ht1f, ht2f, hp3, ht3f, hp4, ht4,
              extractTextSpec, hr1n, hr2n, hr3n, hr4s]
          · have ht4f : truthy t4 = false := by simpa using ht4
            have hr4n : rule4 kvs = none := by
              rw [hr4]; exact (strRule_truthy t4 hs4).2 ht4f
            have hs5 := leafShape _ h5
            by_cases ht5 : truthy ((getKey kvs "response").getD .null) = true
            · obtain ⟨s, hts, hsne, hrs⟩ := (strRule_truthy _ hs5).1 ht5
              have hr5s : rule5 kvs = some s := by rw [rule5]; exact hrs
              have hts5 : truthy (Json.str s) = true := by simp [truthy, hsne]
              simp [extractAgentText, hp1, ht1f, ht2f, hp3, ht3f, hp4, ht4f,
                hts, hts5, extractTextSpec, hr1n, hr2n, hr3n, hr4n, hr5s]
            · have ht5f : truthy ((getKey kvs "response").getD .null) = false := by
                simpa using ht5
              have hr5n : rule5 kvs = none := by
                rw [rule5]; exact (strRule_truthy _ hs5).2 ht5f
              simp [extractAgentText, hp1, ht1f, ht2f, hp3, ht3f, hp4, ht4f,
                ht5f, extractTextSpec, hr1n, hr2n, hr3n, hr4n, hr5n]
  | null => simp [wellShaped] at h
  | bool b => simp [wellShaped] at h
  | num n => simp [wellShaped] at h
  | str s => simp [wellShaped] at h
  | arr l => simp [wellShaped] at h

/-! ## C2 — totality of the extraction step -/

/-- C2 counterexample: with `result` bound to a string, the extraction step
raises (`'str' object has no attribute 'get'`) instead of returning a string —
the exception is only caught by the enclosing handler. -/
theorem extractText_raises_counterexample :
    extractAgentText (.obj [("result", .str "oops")]) =
      .error (.attributeError "object has no attribute get") :=
  rfl

/-- C2 (amended): the extraction step returns a non-empty string and does not
raise on every response whose probed fields, when present, carry the probed
shapes (`result`/`content`/`message` objects, `artifacts`/`parts` arrays with
object heads, probed leaves strings or null); a wrong-typed probed intermediate
makes it raise instead, as the counterexample shows. -/
theorem extractText_total_wellShaped (j : Json) (h : wellShaped j = true) :
    ∃ s : String, extractAgentText j = .ok (.str s) ∧ s ≠ "" :=
  ⟨extractTextSpec j, extract_eq_spec j h, extractTextSpec_ne_empty j⟩

/-- C2 witness: the amended totality theorem at a concrete well-shaped
response. -/
theorem extractText_total_wellShaped_witness :
    wellShaped (.obj [("response", .str "pong")]) = true ∧
    ∃ s : String,
      extractAgentText (.obj [("response", .str "pong")]) = .ok (.str s) ∧
      s ≠ "" :=
  ⟨by decide, extractText_total_wellShaped (.obj [("response", .str "pong")]) (by decide)⟩

/-! ## C3 — ordered fallback rules -/

/-- C3 counterexample: with `result.artifacts` bound to a number, the
normalizer neither applies a later rule nor returns the diagnostic fallback —
it raises a `TypeError` from `len` (caught only by the enclosing handler). -/
theorem extractText_len_raises_counterexample :
    extractAgentText (.obj [("result", .obj [("artifacts", .num 7)])]) =
      .error (.typeError "object has no len") :=
  rfl

/-- C3 (amended): on every well-shaped response the normalizer returns exactly
the result of the spec's ordered rules — `result.artifacts[0].parts[0].text`,
top-level `text`, `content.text`, `message.content`, top-level `response`,
first non-empty string wins, else the diagnostic string embedding the
serialized response; in particular the three concrete examples of the claim
hold.  (On ill-shaped responses the cascade raises instead, as the
counterexample shows.) -/
theorem extractText_ordered_rules :
    (∀ j : Json, wellShaped j = true →
      extractAgentText j = .ok (.str (extractTextSpec j))) ∧
    extractAgentText (.obj [("result", .obj [("artifacts",
        .arr [.obj [("parts", .arr [.obj [("text", .str "hi")]])]])])]) =
      .ok (.str "hi") ∧
    extractAgentText (.obj [("text", .str "hi")]) = .ok (.str "hi") ∧
    extractAgentText (.obj []) =
      .ok (.str "Received response but no text field found. Raw response: \x7b\x7d") :=
  ⟨extract_eq_spec, rfl, rfl, rfl⟩

/-- C3 witness: the refinement conjunct at a concrete well-shaped response. -/
theorem extractText_ordered_rules_witness :
    wellShaped (.obj [("text", .str "ok")]) = true ∧
    extractAgentText (.obj [("text", .str "ok")]) =
      .ok (.str (extractTextSpec (.obj [("text", .str "ok")]))) :=
  ⟨by decide, extractText_ordered_rules.1 (.obj [("text", .str "ok")]) (by decide)⟩

end ADK
